import Mathlib

/-!
Verification of the normalization/factory slice of a multi-venue trading
adapter against its natural-language specification.

Source files embedded here:
* `nautilus_trader/adapters/polymarket/schemas/user.py` — Polymarket user
  payload schemas and their parsers into canonical reports.
* `nautilus_trader/adapters/binance/factories.py` — Binance client/provider
  caches and base-URL resolution.

Helper code that those files call but that is not part of the given sources
(`millis_to_nanos`, `Instrument.make_price`/`make_qty`, vocabulary mappers,
identifier wrappers) is modelled from the specification document; each such
definition carries a `Modelled from the spec:` doc comment.

Python's `float()` applied to a decimal string is modelled exactly: the
string's rational value is rounded to the nearest IEEE-754 binary64 value
(round-to-nearest, ties-to-even), represented as a rational number.
-/
/-! ## Exact model of IEEE-754 binary64 rounding -/
/-- Round a rational to the nearest integer, ties going to the even
integer (the IEEE-754 default rounding of a real significand). -/
def roundHalfEven (q : ℚ) : ℤ :=
  if q - (⌊q⌋ : ℚ) < 1/2 then ⌊q⌋
  else if 1/2 < q - (⌊q⌋ : ℚ) then ⌊q⌋ + 1
  else if 2 ∣ ⌊q⌋ then ⌊q⌋ else ⌊q⌋ + 1

/-- Integer power of two as a rational, defined for any integer exponent. -/
def ratExp2 (e : ℤ) : ℚ :=
  if 0 ≤ e then ((2 : ℚ) ^ e.toNat) else 1 / ((2 : ℚ) ^ (-e).toNat)

/-- Floor of the base-2 logarithm of a positive rational, computed from the
binary logarithms of numerator and denominator with a one-step correction. -/
def floorLog2Rat (q : ℚ) : ℤ :=
  if q < ratExp2 ((Nat.log2 q.num.natAbs : ℤ) - (Nat.log2 q.den : ℤ)) then
    (Nat.log2 q.num.natAbs : ℤ) - (Nat.log2 q.den : ℤ) - 1
  else
    (Nat.log2 q.num.natAbs : ℤ) - (Nat.log2 q.den : ℤ)

/-- Model of rounding a real (rational) value to the nearest IEEE-754
binary64 value, round-to-nearest ties-to-even, for values in the normal
range (overflow and subnormals are outside the range this development
evaluates the model on). This is what Python's `float()` produces for a
decimal string, and `floatRound q = q` exactly when `q` is representable. -/
def floatRound (q : ℚ) : ℚ :=
  if q = 0 then 0
  else if q < 0 then
    -((roundHalfEven (|q| / ratExp2 (floorLog2Rat |q| - 52)) : ℚ) *
      ratExp2 (floorLog2Rat |q| - 52))
  else
    (roundHalfEven (q / ratExp2 (floorLog2Rat q - 52)) : ℚ) *
      ratExp2 (floorLog2Rat q - 52)

/-! ## Decimal-string parsing (model of Python `float(s)` / `int(s)`) -/
/-- Numeric value of a decimal digit character, or `none` if not a digit. -/
def digitVal (c : Char) : Option ℕ :=
  if '0' ≤ c ∧ c ≤ '9' then some (c.toNat - '0'.toNat) else none

/-- Left fold of decimal digits onto an accumulator; fails on a non-digit. -/
def foldDigits : List Char → ℕ → Option ℕ
  | [], acc => some acc
  | c :: cs, acc =>
    match digitVal c with
    | some d => foldDigits cs (acc * 10 + d)
    | none => none

/-- Parse a nonempty run of decimal digits into a natural number. -/
def parseDigits : List Char → Option ℕ
  | [] => none
  | cs => foldDigits cs 0

/-- Split an unsigned decimal literal `intpart[.fracpart]` into
(integer part, fraction digits value, fraction digit count). -/
def pyDecimalParts (cs : List Char) : Option (ℕ × ℕ × ℕ) :=
  let ip := cs.takeWhile (fun c => c ≠ '.')
  let rest := cs.dropWhile (fun c => c ≠ '.')
  match rest with
  | [] => (parseDigits ip).map (fun n => (n, 0, 0))
  | _ :: frac => do
      let n ← parseDigits ip
      let f ← parseDigits frac
      some (n, f, frac.length)

/-- Exact rational value of an unsigned decimal literal, or `none` when the
string is not one (models the set of venue payload number strings). -/
def pyDecimal (s : String) : Option ℚ :=
  (pyDecimalParts s.data).map fun p => (p.1 : ℚ) + (p.2.1 : ℚ) / 10 ^ p.2.2

/-- Model of Python `int(s)` on the digit strings venue payloads carry. -/
def pyInt (s : String) : Option ℤ :=
  (parseDigits s.data).map fun n => (n : ℤ)

/-- Model of Python `float(s)` on a decimal string: the exact value of the
string rounded to the nearest binary64 value. -/
def pyFloat (s : String) : Option ℚ :=
  (pyDecimal s).map floatRound

/-- Modelled from the spec: `nautilus_trader.core.datetime.millis_to_nanos`
(not among the given sources) — "given an integer count of milliseconds
since epoch, produce the equivalent nanosecond count". -/
def millis_to_nanos (ms : ℤ) : ℤ := ms * 1000000

/-! ## Canonical enumerations and venue vocabularies

The venue enumerations and vocabulary mappers live in
`nautilus_trader/adapters/polymarket/common/{enums,parsing}.py`, which are not
among the given sources; they are modelled from the specification (section 4.2:
total mappers over closed venue enumerations). -/
/-- Modelled from the spec: Polymarket order side venue enumeration. -/
inductive PolymarketOrderSide
  | BUY
  | SELL
deriving DecidableEq, Repr

/-- Modelled from the spec: Polymarket order type, which the venue uses to
carry time-in-force semantics. -/
inductive PolymarketOrderType
  | GTC
  | GTD
  | FOK
deriving DecidableEq, Repr

/-- Modelled from the spec: Polymarket order status venue enumeration. -/
inductive PolymarketOrderStatus
  | LIVE
  | MATCHED
  | CANCELED
deriving DecidableEq, Repr

/-- Modelled from the spec: Polymarket user-channel event type tag. -/
inductive PolymarketEventType
  | ORDER
  | TRADE
deriving DecidableEq, Repr

/-- Modelled from the spec: whether a trade payload is reported from the
maker's or the taker's perspective. -/
inductive PolymarketLiquiditySide
  | MAKER
  | TAKER
deriving DecidableEq, Repr

/-- Modelled from the spec: Polymarket trade settlement status. -/
inductive PolymarketTradeStatus
  | MATCHED
  | MINED
  | CONFIRMED
deriving DecidableEq, Repr

/-- Canonical order side of the platform's report model. -/
inductive OrderSide
  | BUY
  | SELL
deriving DecidableEq, Repr

/-- Canonical order type of the platform's report model. -/
inductive OrderType
  | LIMIT
  | MARKET
deriving DecidableEq, Repr

/-- Canonical contingency type of the platform's report model. -/
inductive ContingencyType
  | NO_CONTINGENCY
  | OCO
deriving DecidableEq, Repr

/-- Canonical time in force of the platform's report model. -/
inductive TimeInForce
  | GTC
  | GTD
  | FOK
deriving DecidableEq, Repr

/-- Canonical order status of the platform's report model. -/
inductive OrderStatus
  | ACCEPTED
  | FILLED
  | CANCELED
deriving DecidableEq, Repr

/-- Canonical liquidity side of the platform's report model. -/
inductive LiquiditySide
  | MAKER
  | TAKER
deriving DecidableEq, Repr

/-- Modelled from the spec: total vocabulary mapper for order side. -/
def parse_order_side : PolymarketOrderSide → OrderSide
  | .BUY => .BUY
  | .SELL => .SELL

/-- Modelled from the spec: time in force derived from the venue order type
(the venue conflates order type and time in force). -/
def parse_time_in_force : PolymarketOrderType → TimeInForce
  | .GTC => .GTC
  | .GTD => .GTD
  | .FOK => .FOK

/-- Modelled from the spec: total vocabulary mapper for order status. -/
def parse_order_status : PolymarketOrderStatus → OrderStatus
  | .LIVE => .ACCEPTED
  | .MATCHED => .FILLED
  | .CANCELED => .CANCELED

/-! ## Instrument-scaled fixed-point values -/
/-- Instrument-scaled fixed-point value: `raw / 10 ^ precision`. Stands for
the platform's `Price` and `Quantity` value types (not among the given
sources), modelled from the spec's "instrument-scaled fixed value". -/
structure Fixed where
  raw : ℤ
  precision : ℕ
deriving DecidableEq, Repr

/-- Numeric value a `Fixed` displays as when formatted at its precision. -/
def Fixed.toRat (x : Fixed) : ℚ := (x.raw : ℚ) / 10 ^ x.precision

/-- Modelled from the spec: scale a (binary64) value to an instrument
precision, rounding the scaled significand to the nearest integer. -/
def make_fixed (p : ℕ) (v : ℚ) : Fixed :=
  { raw := roundHalfEven (v * 10 ^ p), precision := p }

/-- Modelled from the spec: the slice of a `BinaryOption` instrument the
parsers read — its id and its price/size precisions. -/
structure BinaryOption where
  id : String
  price_precision : ℕ
  size_precision : ℕ
deriving DecidableEq, Repr

/-- Modelled from the spec: `instrument.make_price`, scaling a value to the
instrument's price precision. -/
def BinaryOption.make_price (i : BinaryOption) (v : ℚ) : Fixed :=
  make_fixed i.price_precision v

/-- Modelled from the spec: `instrument.make_qty`, scaling a value to the
instrument's size precision. -/
def BinaryOption.make_qty (i : BinaryOption) (v : ℚ) : Fixed :=
  make_fixed i.size_precision v

/-- Conversion of a venue decimal string at precision `p` exactly as the
parsers perform it: Python `float()` followed by instrument scaling
(the spec's `to_fixed(s, p)`). -/
def to_fixed (s : String) (p : ℕ) : Option Fixed :=
  (pyFloat s).map (make_fixed p)

/-! ## Canonical report model -/
/-- Canonical order status report (spec section 3). The freshly generated
`report_id` (a random UUID) is the one nondeterministic attribute and is
omitted from the embedding; every other attribute of the source constructor
call is present. -/
structure OrderStatusReport where
  account_id : String
  instrument_id : String
  client_order_id : Option String
  order_list_id : Option String
  venue_order_id : String
  order_side : OrderSide
  order_type : OrderType
  contingency_type : ContingencyType
  time_in_force : TimeInForce
  expire_time : Option ℤ
  order_status : OrderStatus
  price : Fixed
  quantity : Fixed
  filled_qty : Fixed
  ts_accepted : ℤ
  ts_last : ℤ
  ts_init : ℤ
deriving DecidableEq, Repr

/-- Canonical fill report (spec section 3), `report_id` omitted as above. -/
structure FillReport where
  account_id : String
  instrument_id : String
  client_order_id : Option String
  venue_order_id : String
  trade_id : String
  order_side : OrderSide
  last_qty : Fixed
  last_px : Fixed
  liquidity_side : LiquiditySide
  ts_event : ℤ
  ts_init : ℤ
deriving DecidableEq, Repr

/-! ## Polymarket payload schemas and parsers
(embedding of `nautilus_trader/adapters/polymarket/schemas/user.py`) -/
/-- Modelled from the spec: one maker sub-order of a trade payload
(`PolymarketMakerOrder`, defined in `schemas/order.py` which is not among
the given sources) — it carries the sub-order's venue id and the maker
address the Identity Resolver matches on (spec section 4.4). -/
structure PolymarketMakerOrder where
  maker_address : String
  order_id : String
deriving DecidableEq, Repr

/-- Polymarket user order status update payload (`event_type == "order"`). -/
structure PolymarketUserOrder where
  asset_id : String
  associate_trades : Option (List String)
  created_at : String
  expiration : String
  id : String
  maker_address : String
  market : String
  order_owner : String
  order_type : PolymarketOrderType
  original_size : String
  outcome : String
  owner : String
  price : String
  side : PolymarketOrderSide
  size_matched : String
  status : PolymarketOrderStatus
  timestamp : String
  type : PolymarketEventType
deriving DecidableEq, Repr

/-- Source `PolymarketUserOrder.venue_order_id`: the payload's `id` field. -/
def PolymarketUserOrder.venue_order_id (o : PolymarketUserOrder) : String := o.id

/-- Source `PolymarketUserOrder.parse_to_order_status_report`. Python
exceptions from `int()` / `float()` on malformed fields are modelled as
`none` (no report produced). -/
def PolymarketUserOrder.parse_to_order_status_report (o : PolymarketUserOrder)
    (account_id : String) (instrument : BinaryOption)
    (client_order_id : Option String) (ts_init : ℤ) : Option OrderStatusReport := do
  let timestamp_ms ← pyInt o.timestamp
  let expire ←
    if o.expiration = "" then
      pure none
    else do
      let e ← pyInt o.expiration
      pure (some (millis_to_nanos e))
  let px ← pyFloat o.price
  let sz ← pyFloat o.original_size
  let fl ← pyFloat o.size_matched
  pure {
    account_id := account_id
    instrument_id := instrument.id
    client_order_id := client_order_id
    order_list_id := none
    venue_order_id := o.venue_order_id
    order_side := parse_order_side o.side
    order_type := OrderType.LIMIT
    contingency_type := ContingencyType.NO_CONTINGENCY
    time_in_force := parse_time_in_force o.order_type
    expire_time := expire
    order_status := parse_order_status o.status
    price := instrument.make_price px
    quantity := instrument.make_qty sz
    filled_qty := instrument.make_qty fl
    ts_accepted := millis_to_nanos timestamp_ms
    ts_last := millis_to_nanos timestamp_ms
    ts_init := ts_init
  }

/-- Source `PolymarketUserOrder.parse_to_fill_report`: both the venue order
id and the trade id of the produced fill come from the payload's `id`. -/
def PolymarketUserOrder.parse_to_fill_report (o : PolymarketUserOrder)
    (account_id : String) (instrument : BinaryOption)
    (client_order_id : Option String) (liquidity_side : LiquiditySide)
    (ts_init : ℤ) : Option FillReport := do
  let ts ← pyInt o.timestamp
  let fl ← pyFloat o.size_matched
  let px ← pyFloat o.price
  pure {
    account_id := account_id
    instrument_id := instrument.id
    client_order_id := client_order_id
    venue_order_id := o.venue_order_id
    trade_id := o.id
    order_side := parse_order_side o.side
    last_qty := instrument.make_qty fl
    last_px := instrument.make_price px
    liquidity_side := liquidity_side
    ts_event := millis_to_nanos ts
    ts_init := ts_init
  }

/-- Polymarket user trade payload (`event_type == "trade"`). -/
structure PolymarketUserTrade where
  asset_id : String
  bucket_index : String
  fee_rate_bps : String
  id : String
  last_update : String
  maker_address : String
  maker_orders : List PolymarketMakerOrder
  market : String
  match_time : String
  outcome : String
  owner : String
  price : String
  side : PolymarketOrderSide
  size : String
  status : PolymarketTradeStatus
  taker_order_id : String
  timestamp : String
  trade_owner : String
  trader_side : PolymarketLiquiditySide
  type : PolymarketEventType
deriving DecidableEq, Repr

/-- Source `PolymarketUserTrade.liqudity_side` (spelling as in the source):
maker perspective maps to maker, anything else to taker. -/
def PolymarketUserTrade.liqudity_side (t : PolymarketUserTrade) : LiquiditySide :=
  if t.trader_side = PolymarketLiquiditySide.MAKER then LiquiditySide.MAKER
  else LiquiditySide.TAKER

/-- Source `PolymarketUserTrade.venue_order_id`: taker perspective returns
`taker_order_id`; maker perspective scans `reversed(maker_orders)` for the
first sub-order whose `maker_address` matches and raises `ValueError`
(modelled as `Except.error`) when none does. -/
def PolymarketUserTrade.venue_order_id (t : PolymarketUserTrade)
    (maker_address : String) : Except String String :=
  if t.trader_side = PolymarketLiquiditySide.MAKER then
    match t.maker_orders.reverse.find? (fun o => o.maker_address == maker_address) with
    | some o => Except.ok o.order_id
    | none => Except.error "Invalid array of maker orders (`maker_address` not found)"
  else
    Except.ok t.taker_order_id

/-- Source `PolymarketUserTrade.parse_to_fill_report`; the `ValueError`
raised by `venue_order_id` propagates, so no report is produced then. -/
def PolymarketUserTrade.parse_to_fill_report (t : PolymarketUserTrade)
    (account_id : String) (instrument : BinaryOption)
    (client_order_id : Option String) (maker_address : String)
    (ts_init : ℤ) : Option FillReport := do
  let voi ← (t.venue_order_id maker_address).toOption
  let sz ← pyFloat t.size
  let px ← pyFloat t.price
  let mt ← pyInt t.match_time
  pure {
    account_id := account_id
    instrument_id := instrument.id
    client_order_id := client_order_id
    venue_order_id := voi
    trade_id := t.id
    order_side := parse_order_side t.side
    last_qty := instrument.make_qty sz
    last_px := instrument.make_price px
    liquidity_side := t.liqudity_side
    ts_event := millis_to_nanos mt
    ts_init := ts_init
  }

/-- Polymarket active-order snapshot payload (REST `get-order`). -/
structure PolymarketOpenOrder where
  associate_trades : Option (List String)
  id : String
  status : PolymarketOrderStatus
  market : String
  original_size : String
  outcome : String
  maker_address : String
  owner : String
  price : String
  side : PolymarketOrderSide
  size_matched : String
  asset_id : String
  expiration : String
  order_type : PolymarketOrderType
  created_at : ℤ
deriving DecidableEq, Repr

/-- Source `PolymarketOpenOrder.get_venue_order_id`: the `id` field. -/
def PolymarketOpenOrder.get_venue_order_id (o : PolymarketOpenOrder) : String := o.id

/-- Source `PolymarketOpenOrder.parse_to_order_status_report`: as for the
push variant, but both timestamps come from the single `created_at` field. -/
def PolymarketOpenOrder.parse_to_order_status_report (o : PolymarketOpenOrder)
    (account_id : String) (instrument : BinaryOption)
    (client_order_id : Option String) (ts_init : ℤ) : Option OrderStatusReport := do
  let expire ←
    if o.expiration = "" then
      pure none
    else do
      let e ← pyInt o.expiration
      pure (some (millis_to_nanos e))
  let px ← pyFloat o.price
  let sz ← pyFloat o.original_size
  let fl ← pyFloat o.size_matched
  pure {
    account_id := account_id
    instrument_id := instrument.id
    client_order_id := client_order_id
    order_list_id := none
    venue_order_id := o.get_venue_order_id
    order_side := parse_order_side o.side
    order_type := OrderType.LIMIT
    contingency_type := ContingencyType.NO_CONTINGENCY
    time_in_force := parse_time_in_force o.order_type
    expire_time := expire
    order_status := parse_order_status o.status
    price := instrument.make_price px
    quantity := instrument.make_qty sz
    filled_qty := instrument.make_qty fl
    ts_accepted := millis_to_nanos o.created_at
    ts_last := millis_to_nanos o.created_at
    ts_init := ts_init
  }

/-! ## Binance account types, configuration and URL resolution
(embedding of `nautilus_trader/adapters/binance/factories.py`) -/
/-- Binance venue sub-market enumeration (`BinanceAccountType` at the
source's revision: spot, margin, USDT-margined futures, coin-margined
futures). -/
inductive BinanceAccountType
  | SPOT
  | MARGIN
  | FUTURES_USDT
  | FUTURES_COIN
deriving DecidableEq, Repr

/-- Source `BinanceAccountType.is_spot`. -/
def BinanceAccountType.is_spot : BinanceAccountType → Bool
  | .SPOT => true
  | _ => false

/-- Source `BinanceAccountType.is_margin`. -/
def BinanceAccountType.is_margin : BinanceAccountType → Bool
  | .MARGIN => true
  | _ => false

/-- Slice of `BinanceDataClientConfig` / `BinanceExecClientConfig` that the
URL resolvers read: the account type, the test-network flag and the
regional (`us`) flag. -/
structure BinanceConfig where
  account_type : BinanceAccountType
  testnet : Bool
  us : Bool
deriving DecidableEq, Repr

/-- Source `_get_http_base_url`: testnet URLs take precedence; in live mode
the `us` flag picks the top-level domain. All four account types are
covered, so the source's unreachable `RuntimeError` branch has no
counterpart. -/
def _get_http_base_url (config : BinanceConfig) : String :=
  if config.testnet then
    match config.account_type with
    | .SPOT => "https://testnet.binance.vision/api"
    | .MARGIN => "https://testnet.binance.vision/api"
    | .FUTURES_USDT => "https://testnet.binancefuture.com"
    | .FUTURES_COIN => "https://testnet.binancefuture.com"
  else
    match config.account_type with
    | .SPOT => "https://api.binance." ++ (if config.us then "us" else "com")
    | .MARGIN => "https://sapi.binance." ++ (if config.us then "us" else "com")
    | .FUTURES_USDT => "https://fapi.binance." ++ (if config.us then "us" else "com")
    | .FUTURES_COIN => "https://dapi.binance." ++ (if config.us then "us" else "com")

/-- Source `_get_ws_base_url`: as the HTTP variant, except that
coin-margined futures in testnet mode raises `ValueError` (modelled as
`Except.error`). -/
def _get_ws_base_url (config : BinanceConfig) : Except String String :=
  if config.testnet then
    match config.account_type with
    | .SPOT => Except.ok "wss://testnet.binance.vision"
    | .MARGIN => Except.ok "wss://testnet.binance.vision"
    | .FUTURES_USDT => Except.ok "wss://stream.binancefuture.com"
    | .FUTURES_COIN => Except.error "no testnet for COIN-M futures"
  else
    match config.account_type with
    | .SPOT => Except.ok ("wss://stream.binance." ++ (if config.us then "us" else "com") ++ ":9443")
    | .MARGIN => Except.ok ("wss://stream.binance." ++ (if config.us then "us" else "com") ++ ":9443")
    | .FUTURES_USDT => Except.ok ("wss://fstream.binance." ++ (if config.us then "us" else "com"))
    | .FUTURES_COIN => Except.ok ("wss://dstream.binance." ++ (if config.us then "us" else "com"))

/-! ## Binance credential resolution and the HTTP-client cache -/
/-- Environment variables `_get_api_key` / `_get_api_secret` read, as a
record (the embedding treats the process environment as a fixed input). -/
structure BinanceEnv where
  api_key : String
  api_secret : String
  testnet_api_key : String
  testnet_api_secret : String
  futures_api_key : String
  futures_api_secret : String
  futures_testnet_api_key : String
  futures_testnet_api_secret : String
deriving DecidableEq, Repr

/-- Source `_get_api_key`. -/
def _get_api_key (env : BinanceEnv) (account_type : BinanceAccountType)
    (is_testnet : Bool) : String :=
  if is_testnet then
    if account_type.is_spot || account_type.is_margin then env.testnet_api_key
    else env.futures_testnet_api_key
  else
    if account_type.is_spot || account_type.is_margin then env.api_key
    else env.futures_api_key

/-- Source `_get_api_secret`. -/
def _get_api_secret (env : BinanceEnv) (account_type : BinanceAccountType)
    (is_testnet : Bool) : String :=
  if is_testnet then
    if account_type.is_spot || account_type.is_margin then env.testnet_api_secret
    else env.futures_testnet_api_secret
  else
    if account_type.is_spot || account_type.is_margin then env.api_secret
    else env.futures_api_secret

/-- Model of Python's `key or fallback` on an `Optional[str]`: the fallback
is used when the value is `None` or the empty (falsy) string. -/
def orElseFalsy (v : Option String) (fallback : String) : String :=
  match v with
  | some s => if s = "" then fallback else s
  | none => fallback

/-- Model of a constructed `BinanceHttpClient`: the constructor arguments
the source passes, plus a construction serial number (`uid`) standing for
Python object identity, so that distinct constructions are distinguishable. -/
structure BinanceHttpClient where
  loop : ℕ
  clock : ℕ
  logger : ℕ
  key : String
  secret : String
  base_url : Option String
  uid : ℕ
deriving DecidableEq, Repr

/-- State of the module-level `HTTP_CLIENTS` dictionary: the stored clients
keyed by credential key, plus the next construction serial number. -/
structure HttpClientsState where
  clients : List (String × BinanceHttpClient)
  next_uid : ℕ
deriving DecidableEq, Repr

/-- Credential API key as resolved by the source: the explicit value when
truthy, else the environment lookup. -/
def binanceResolvedKey (env : BinanceEnv) (key : Option String)
    (account_type : BinanceAccountType) (is_testnet : Bool) : String :=
  orElseFalsy key (_get_api_key env account_type is_testnet)

/-- Credential API secret as resolved by the source. -/
def binanceResolvedSecret (env : BinanceEnv) (secret : Option String)
    (account_type : BinanceAccountType) (is_testnet : Bool) : String :=
  orElseFalsy secret (_get_api_secret env account_type is_testnet)

/-- Source `client_key = "|".join((key, secret))` after credential
resolution. -/
def binanceClientKey (env : BinanceEnv) (key secret : Option String)
    (account_type : BinanceAccountType) (is_testnet : Bool) : String :=
  binanceResolvedKey env key account_type is_testnet ++ "|" ++
    binanceResolvedSecret env secret account_type is_testnet

/-- Source `get_cached_binance_http_client`: resolve credentials (explicit
value, else environment), build `client_key = key + "|" + secret`, return
the cached client for that key if present, otherwise construct one, store
it and return it. Returns the client together with the updated registry
state. -/
def get_cached_binance_http_client (env : BinanceEnv) (st : HttpClientsState)
    (loop : ℕ) (clock : ℕ) (logger : ℕ)
    (key : Option String) (secret : Option String)
    (account_type : BinanceAccountType) (base_url : Option String)
    (is_testnet : Bool) : BinanceHttpClient × HttpClientsState :=
  match List.lookup (binanceClientKey env key secret account_type is_testnet) st.clients with
  | some c => (c, st)
  | none =>
    ({ loop := loop, clock := clock, logger := logger,
       key := binanceResolvedKey env key account_type is_testnet,
       secret := binanceResolvedSecret env secret account_type is_testnet,
       base_url := base_url, uid := st.next_uid },
     { clients := (binanceClientKey env key secret account_type is_testnet,
         { loop := loop, clock := clock, logger := logger,
           key := binanceResolvedKey env key account_type is_testnet,
           secret := binanceResolvedSecret env secret account_type is_testnet,
           base_url := base_url, uid := st.next_uid }) :: st.clients,
       next_uid := st.next_uid + 1 })

/-! ## Binance instrument-provider caches (`@lru_cache(1)`) -/
/-- Model of a constructed instrument provider: the constructor arguments
(client identity, logger identity, account type, config identity) plus a
construction serial number standing for Python object identity. -/
structure BinanceInstrumentProvider where
  client : ℕ
  logger : ℕ
  account_type : BinanceAccountType
  config : ℕ
  uid : ℕ
deriving DecidableEq, Repr

/-- Cache key of the provider factories: the full argument tuple
`(client, logger, account_type, config)`, exactly what `functools.lru_cache`
keys the memoized call on. -/
structure ProviderKey where
  client : ℕ
  logger : ℕ
  account_type : BinanceAccountType
  config : ℕ
deriving DecidableEq, Repr

/-- State of one `@lru_cache(1)`-decorated provider factory: the single
most recent (key, value) entry — capacity one — plus the next construction
serial number. -/
structure ProviderCacheState where
  cached : Option (ProviderKey × BinanceInstrumentProvider)
  next_uid : ℕ
deriving DecidableEq, Repr

/-- Source `get_cached_binance_spot_instrument_provider` /
`get_cached_binance_futures_instrument_provider` (both have the same
`@lru_cache(1)` shape): if the cached entry's key equals the full argument
tuple, return the cached provider; otherwise construct a new provider and
replace the single cache slot with it. -/
def get_cached_binance_instrument_provider (st : ProviderCacheState)
    (k : ProviderKey) : BinanceInstrumentProvider × ProviderCacheState :=
  match st.cached with
  | some (k0, p) =>
    if k0 = k then (p, st)
    else
      let p' : BinanceInstrumentProvider :=
        { client := k.client, logger := k.logger, account_type := k.account_type,
          config := k.config, uid := st.next_uid }
      (p', { cached := some (k, p'), next_uid := st.next_uid + 1 })
  | none =>
    let p' : BinanceInstrumentProvider :=
      { client := k.client, logger := k.logger, account_type := k.account_type,
        config := k.config, uid := st.next_uid }
    (p', { cached := some (k, p'), next_uid := st.next_uid + 1 })

/-- Pre-existing client entry used by the C8 witness. -/
def witnessClientA : BinanceHttpClient :=
  { loop := 0, clock := 0, logger := 0, key := "A", secret := "B", base_url := none, uid := 99 }

/-- Environment record with empty credentials, used by witnesses. -/
def witnessEnv : BinanceEnv :=
  { api_key := "", api_secret := "", testnet_api_key := "", testnet_api_secret := "",
    futures_api_key := "", futures_api_secret := "", futures_testnet_api_key := "",
    futures_testnet_api_secret := "" }

/-- Registry state holding one client under key `"A|B"`, used by the C8
witness. -/
def witnessHttpState : HttpClientsState :=
  { clients := [("A|B", witnessClientA)], next_uid := 5 }

/-- Maker sub-orders used by the C2 witness: two sub-orders for the same
address; the scan must pick the LAST one (`order_id = "mo-2"`). -/
def witnessMakerTrade : PolymarketUserTrade :=
  { asset_id := "asset", bucket_index := "0", fee_rate_bps := "0", id := "trade-1",
    last_update := "0", maker_address := "0xME",
    maker_orders := [{ maker_address := "0xME", order_id := "mo-1" },
                     { maker_address := "0xOTHER", order_id := "mo-x" },
                     { maker_address := "0xME", order_id := "mo-2" }],
    market := "cond", match_time := "1", outcome := "Yes", owner := "ow", price := "0.5",
    side := PolymarketOrderSide.BUY, size := "1", status := PolymarketTradeStatus.MATCHED,
    taker_order_id := "tk-1", timestamp := "1", trade_owner := "ow",
    trader_side := PolymarketLiquiditySide.MAKER, type := PolymarketEventType.TRADE }

/-- Taker-perspective variant of the witness trade. -/
def witnessTakerTrade : PolymarketUserTrade :=
  { witnessMakerTrade with trader_side := PolymarketLiquiditySide.TAKER }

/-- Maker-perspective trade whose sub-orders never match the local address. -/
def witnessOrphanTrade : PolymarketUserTrade :=
  { witnessMakerTrade with
    maker_orders := [{ maker_address := "0xOTHER", order_id := "mo-x" }] }

/-! ## Concrete example payloads (spec section 8's end-to-end example) -/
/-- Instrument with 2-decimal price and quantity precision, as in the
spec's end-to-end example. -/
def exInstrument : BinaryOption :=
  { id := "POLY-1", price_precision := 2, size_precision := 2 }

/-- The spec's end-to-end example payload: `side="BUY"`,
`original_size="10.5"`, `size_matched="2.0"`, `price="0.37"`,
`expiration="0"`. -/
def exUserOrder : PolymarketUserOrder :=
  { asset_id := "asset", associate_trades := none, created_at := "0",
    expiration := "0", id := "ORDER-1", maker_address := "0xME", market := "cond",
    order_owner := "ow", order_type := PolymarketOrderType.GTC,
    original_size := "10.5", outcome := "Yes", owner := "ow", price := "0.37",
    side := PolymarketOrderSide.BUY, size_matched := "2.0",
    status := PolymarketOrderStatus.LIVE, timestamp := "1700000000000",
    type := PolymarketEventType.ORDER }

/-- Report the example payload parses to. -/
def exReport : OrderStatusReport :=
  { account_id := "ACC", instrument_id := "POLY-1", client_order_id := none,
    order_list_id := none, venue_order_id := "ORDER-1",
    order_side := OrderSide.BUY, order_type := OrderType.LIMIT,
    contingency_type := ContingencyType.NO_CONTINGENCY,
    time_in_force := TimeInForce.GTC, expire_time := some 0,
    order_status := OrderStatus.ACCEPTED,
    price := { raw := 37, precision := 2 },
    quantity := { raw := 1050, precision := 2 },
    filled_qty := { raw := 200, precision := 2 },
    ts_accepted := 1700000000000000000, ts_last := 1700000000000000000,
    ts_init := 7 }

/-- Fill report the example payload parses to. -/
def exFill : FillReport :=
  { account_id := "ACC", instrument_id := "POLY-1", client_order_id := none,
    venue_order_id := "ORDER-1", trade_id := "ORDER-1",
    order_side := OrderSide.BUY,
    last_qty := { raw := 200, precision := 2 },
    last_px := { raw := 37, precision := 2 },
    liquidity_side := LiquiditySide.TAKER,
    ts_event := 1700000000000000000, ts_init := 3 }

/-- Payload whose matched size exceeds its original size. -/
def overfillOrder : PolymarketUserOrder :=
  { exUserOrder with original_size := "1", size_matched := "2" }

/-! ## Toolkit lemmas for the binary64 model -/
theorem ratExp2_eq_zpow (e : ℤ) : ratExp2 e = (2 : ℚ) ^ e := by
  unfold ratExp2
  split
  · rw [← zpow_natCast, Int.toNat_of_nonneg (by assumption)]
  · rw [← zpow_natCast, Int.toNat_of_nonneg (by omega), one_div, ← zpow_neg, neg_neg]

theorem ratExp2_pos (e : ℤ) : 0 < ratExp2 e := by
  rw [ratExp2_eq_zpow]; positivity

theorem ratExp2_lt_ratExp2 {a b : ℤ} (h : a < b) : ratExp2 a < ratExp2 b := by
  rw [ratExp2_eq_zpow, ratExp2_eq_zpow]
  exact zpow_lt_zpow_right₀ (by norm_num) h

theorem ratExp2_le_ratExp2 {a b : ℤ} (h : a ≤ b) : ratExp2 a ≤ ratExp2 b := by
  rcases h.lt_or_eq with h | h
  · exact (ratExp2_lt_ratExp2 h).le
  · rw [h]

theorem ratExp2_add (a b : ℤ) : ratExp2 (a + b) = ratExp2 a * ratExp2 b := by
  rw [ratExp2_eq_zpow, ratExp2_eq_zpow, ratExp2_eq_zpow, zpow_add₀ (by norm_num : (2:ℚ) ≠ 0)]

theorem floor_le_roundHalfEven (q : ℚ) : ⌊q⌋ ≤ roundHalfEven q := by
  unfold roundHalfEven
  split
  · exact le_refl _
  · split
    · omega
    · split <;> omega

theorem roundHalfEven_le_floor_add_one (q : ℚ) : roundHalfEven q ≤ ⌊q⌋ + 1 := by
  unfold roundHalfEven
  split
  · omega
  · split
    · exact le_refl _
    · split <;> omega

theorem roundHalfEven_intCast (n : ℤ) : roundHalfEven (n : ℚ) = n := by
  unfold roundHalfEven
  rw [Int.floor_intCast]
  norm_num

theorem roundHalfEven_eq_of_lt_half (q : ℚ) (n : ℤ) (h1 : (n : ℚ) ≤ q)
    (h2 : q < (n : ℚ) + 1/2) : roundHalfEven q = n := by
  have hf : ⌊q⌋ = n := Int.floor_eq_iff.mpr ⟨h1, by linarith⟩
  unfold roundHalfEven
  rw [hf, if_pos (by linarith)]

theorem roundHalfEven_eq_of_gt_half (q : ℚ) (n : ℤ) (h1 : (n : ℚ) + 1/2 < q)
    (h2 : q < (n : ℚ) + 1) : roundHalfEven q = n + 1 := by
  have hf : ⌊q⌋ = n := Int.floor_eq_iff.mpr ⟨by linarith, by linarith⟩
  unfold roundHalfEven
  rw [hf, if_neg (by linarith), if_pos (by linarith)]

theorem roundHalfEven_eq_of_tie_even (q : ℚ) (n : ℤ) (heq : q = (n : ℚ) + 1/2)
    (hev : 2 ∣ n) : roundHalfEven q = n := by
  have hf : ⌊q⌋ = n := Int.floor_eq_iff.mpr ⟨by rw [heq]; linarith, by rw [heq]; norm_num⟩
  unfold roundHalfEven
  rw [hf, if_neg (by rw [heq]; norm_num), if_neg (by rw [heq]; norm_num),
    if_pos hev]

theorem roundHalfEven_mono {a b : ℚ} (h : a ≤ b) : roundHalfEven a ≤ roundHalfEven b := by
  rcases (Int.floor_mono h).lt_or_eq with hf | hf
  · calc roundHalfEven a ≤ ⌊a⌋ + 1 := roundHalfEven_le_floor_add_one a
      _ ≤ ⌊b⌋ := by omega
      _ ≤ roundHalfEven b := floor_le_roundHalfEven b
  · unfold roundHalfEven
    rw [hf]
    have hr : a - (⌊b⌋ : ℚ) ≤ b - (⌊b⌋ : ℚ) := by linarith
    split_ifs <;> first | omega | linarith

theorem floorLog2Rat_spec {q : ℚ} (hq : 0 < q) :
    ratExp2 (floorLog2Rat q) ≤ q ∧ q < ratExp2 (floorLog2Rat q + 1) := by
  have hnum : 0 < q.num := Rat.num_pos.mpr hq
  have hdenpos : 0 < q.den := q.pos
  have hn0 : q.num.natAbs ≠ 0 := by omega
  have hd0 : q.den ≠ 0 := by omega
  have hdq : (0 : ℚ) < (q.den : ℚ) := by exact_mod_cast hdenpos
  have h1 : 2 ^ (q.num.natAbs.log2) ≤ q.num.natAbs := Nat.log2_self_le hn0
  have h2 : q.num.natAbs < 2 ^ (q.num.natAbs.log2 + 1) := Nat.lt_log2_self
  have h3 : 2 ^ (q.den.log2) ≤ q.den := Nat.log2_self_le hd0
  have h4 : q.den < 2 ^ (q.den.log2 + 1) := Nat.lt_log2_self
  have hnn : (q.num.natAbs : ℚ) = (q.num : ℚ) := by
    rw [Int.cast_natAbs]
    exact_mod_cast abs_of_pos hnum
  have hq_eq : q = (q.num.natAbs : ℚ) / (q.den : ℚ) := by
    rw [hnn]
    exact (Rat.num_div_den q).symm
  have e1 : (2:ℚ) ^ ((q.num.natAbs.log2 : ℤ)) ≤ (q.num.natAbs : ℚ) := by
    rw [zpow_natCast]; exact_mod_cast h1
  have e2 : (q.num.natAbs : ℚ) < (2:ℚ) ^ ((q.num.natAbs.log2 : ℤ) + 1) := by
    have : ((q.num.natAbs.log2 : ℤ) + 1) = ((q.num.natAbs.log2 + 1 : ℕ) : ℤ) := by push_cast; ring
    rw [this, zpow_natCast]; exact_mod_cast h2
  have e3 : (2:ℚ) ^ ((q.den.log2 : ℤ)) ≤ (q.den : ℚ) := by
    rw [zpow_natCast]; exact_mod_cast h3
  have e4 : (q.den : ℚ) < (2:ℚ) ^ ((q.den.log2 : ℤ) + 1) := by
    have : ((q.den.log2 : ℤ) + 1) = ((q.den.log2 + 1 : ℕ) : ℤ) := by push_cast; ring
    rw [this, zpow_natCast]; exact_mod_cast h4
  have key1 : (2:ℚ) ^ ((q.num.natAbs.log2 : ℤ) - (q.den.log2 : ℤ) - 1) * (q.den : ℚ) <
      (q.num.natAbs : ℚ) := by
    calc (2:ℚ) ^ ((q.num.natAbs.log2 : ℤ) - (q.den.log2 : ℤ) - 1) * (q.den : ℚ)
        < (2:ℚ) ^ ((q.num.natAbs.log2 : ℤ) - (q.den.log2 : ℤ) - 1) *
            (2:ℚ) ^ ((q.den.log2 : ℤ) + 1) := by
          exact mul_lt_mul_of_pos_left e4 (by positivity)
      _ = (2:ℚ) ^ ((q.num.natAbs.log2 : ℤ)) := by
          rw [← zpow_add₀ (by norm_num : (2:ℚ) ≠ 0)]; ring_nf
      _ ≤ (q.num.natAbs : ℚ) := e1
  have goal1 : (2:ℚ) ^ ((q.num.natAbs.log2 : ℤ) - (q.den.log2 : ℤ) - 1) < q := by
    have := (lt_div_iff₀ hdq).mpr key1
    rw [← hq_eq] at this
    exact this
  have key2 : (q.num.natAbs : ℚ) <
      (2:ℚ) ^ ((q.num.natAbs.log2 : ℤ) - (q.den.log2 : ℤ) + 1) * (q.den : ℚ) := by
    calc (q.num.natAbs : ℚ) < (2:ℚ) ^ ((q.num.natAbs.log2 : ℤ) + 1) := e2
      _ = (2:ℚ) ^ ((q.num.natAbs.log2 : ℤ) - (q.den.log2 : ℤ) + 1) *
            (2:ℚ) ^ ((q.den.log2 : ℤ)) := by
          rw [← zpow_add₀ (by norm_num : (2:ℚ) ≠ 0)]; ring_nf
      _ ≤ (2:ℚ) ^ ((q.num.natAbs.log2 : ℤ) - (q.den.log2 : ℤ) + 1) * (q.den : ℚ) := by
          exact mul_le_mul_of_nonneg_left e3 (by positivity)
  have goal2 : q < (2:ℚ) ^ ((q.num.natAbs.log2 : ℤ) - (q.den.log2 : ℤ) + 1) := by
    have := (div_lt_iff₀ hdq).mpr key2
    rw [← hq_eq] at this
    exact this
  unfold floorLog2Rat
  split
  · constructor
    · rw [ratExp2_eq_zpow]
      exact goal1.le
    · rw [ratExp2_eq_zpow]
      have hcond : q < ratExp2 ((q.num.natAbs.log2 : ℤ) - (q.den.log2 : ℤ)) := by assumption
      rw [ratExp2_eq_zpow] at hcond
      have : (q.num.natAbs.log2 : ℤ) - (q.den.log2 : ℤ) - 1 + 1 =
          (q.num.natAbs.log2 : ℤ) - (q.den.log2 : ℤ) := by ring
      rw [this]
      exact hcond
  · constructor
    · have hcond : ¬ q < ratExp2 ((q.num.natAbs.log2 : ℤ) - (q.den.log2 : ℤ)) := by assumption
      exact not_lt.mp hcond
    · rw [ratExp2_eq_zpow]
      exact goal2

theorem floorLog2Rat_unique {q : ℚ} {e : ℤ} (hq : 0 < q)
    (h1 : ratExp2 e ≤ q) (h2 : q < ratExp2 (e + 1)) : floorLog2Rat q = e := by
  obtain ⟨s1, s2⟩ := floorLog2Rat_spec hq
  by_contra hne
  rcases lt_or_gt_of_ne hne with hlt | hgt
  · have : ratExp2 (floorLog2Rat q + 1) ≤ ratExp2 e := ratExp2_le_ratExp2 (by omega)
    linarith
  · have : ratExp2 (e + 1) ≤ ratExp2 (floorLog2Rat q) := ratExp2_le_ratExp2 (by omega)
    linarith

theorem floorLog2Rat_mono {a b : ℚ} (ha : 0 < a) (h : a ≤ b) :
    floorLog2Rat a ≤ floorLog2Rat b := by
  obtain ⟨sa1, sa2⟩ := floorLog2Rat_spec ha
  obtain ⟨sb1, sb2⟩ := floorLog2Rat_spec (lt_of_lt_of_le ha h)
  by_contra hlt
  have : ratExp2 (floorLog2Rat b + 1) ≤ ratExp2 (floorLog2Rat a) :=
    ratExp2_le_ratExp2 (by omega)
  linarith

theorem ratExp2_52 : ratExp2 52 = ((2 ^ 52 : ℤ) : ℚ) := by
  rw [ratExp2_eq_zpow]
  norm_num

theorem ratExp2_53 : ratExp2 53 = ((2 ^ 53 : ℤ) : ℚ) := by
  rw [ratExp2_eq_zpow]
  norm_num

theorem floatRound_zero : floatRound 0 = 0 := by
  unfold floatRound
  simp

theorem floatRound_eq_pos {q : ℚ} (hq : 0 < q) :
    floatRound q = (roundHalfEven (q / ratExp2 (floorLog2Rat q - 52)) : ℚ) *
      ratExp2 (floorLog2Rat q - 52) := by
  unfold floatRound
  rw [if_neg hq.ne', if_neg (not_lt.mpr hq.le)]

theorem floatRound_eq_of_bounds {q : ℚ} {e : ℤ} (hq : 0 < q)
    (h1 : ratExp2 (e + 52) ≤ q) (h2 : q < ratExp2 (e + 53)) :
    floatRound q = (roundHalfEven (q / ratExp2 e) : ℚ) * ratExp2 e := by
  have h2' : q < ratExp2 (e + 52 + 1) := by
    have : e + 52 + 1 = e + 53 := by ring
    rw [this]
    exact h2
  have hf : floorLog2Rat q = e + 52 := floorLog2Rat_unique hq h1 h2'
  have he : floorLog2Rat q - 52 = e := by omega
  rw [floatRound_eq_pos hq, he]

theorem floatRound_nonneg {q : ℚ} (h : 0 ≤ q) : 0 ≤ floatRound q := by
  rcases h.eq_or_lt with h0 | hpos
  · rw [← h0, floatRound_zero]
  · rw [floatRound_eq_pos hpos]
    have hx : 0 < q / ratExp2 (floorLog2Rat q - 52) := div_pos hpos (ratExp2_pos _)
    have hfl : 0 ≤ ⌊q / ratExp2 (floorLog2Rat q - 52)⌋ := Int.floor_nonneg.mpr hx.le
    have hr : 0 ≤ roundHalfEven (q / ratExp2 (floorLog2Rat q - 52)) :=
      le_trans hfl (floor_le_roundHalfEven _)
    exact mul_nonneg (by exact_mod_cast hr) (ratExp2_pos _).le

theorem floatRound_lower {q : ℚ} (hq : 0 < q) :
    ratExp2 (floorLog2Rat q) ≤ floatRound q := by
  obtain ⟨s1, _⟩ := floorLog2Rat_spec hq
  rw [floatRound_eq_pos hq]
  have hsplit : floorLog2Rat q = (floorLog2Rat q - 52) + 52 := by ring
  have hb : ratExp2 52 ≤ q / ratExp2 (floorLog2Rat q - 52) := by
    rw [le_div_iff₀ (ratExp2_pos _), ← ratExp2_add]
    have : 52 + (floorLog2Rat q - 52) = floorLog2Rat q := by ring
    rw [this]
    exact s1
  have hb' : ((2 ^ 52 : ℤ) : ℚ) ≤ q / ratExp2 (floorLog2Rat q - 52) := by
    rw [← ratExp2_52]
    exact hb
  have hfl : (2 ^ 52 : ℤ) ≤ ⌊q / ratExp2 (floorLog2Rat q - 52)⌋ := Int.le_floor.mpr hb'
  have hr : (2 ^ 52 : ℤ) ≤ roundHalfEven (q / ratExp2 (floorLog2Rat q - 52)) :=
    le_trans hfl (floor_le_roundHalfEven _)
  calc ratExp2 (floorLog2Rat q)
      = ratExp2 52 * ratExp2 (floorLog2Rat q - 52) := by
        rw [← ratExp2_add]
        congr 1
        ring
    _ ≤ (roundHalfEven (q / ratExp2 (floorLog2Rat q - 52)) : ℚ) *
          ratExp2 (floorLog2Rat q - 52) := by
        apply mul_le_mul_of_nonneg_right _ (ratExp2_pos _).le
        rw [ratExp2_52]
        exact_mod_cast hr

theorem floatRound_upper {q : ℚ} (hq : 0 < q) :
    floatRound q ≤ ratExp2 (floorLog2Rat q + 1) := by
  obtain ⟨_, s2⟩ := floorLog2Rat_spec hq
  rw [floatRound_eq_pos hq]
  have hb : q / ratExp2 (floorLog2Rat q - 52) < ratExp2 53 := by
    rw [div_lt_iff₀ (ratExp2_pos _), ← ratExp2_add]
    have : 53 + (floorLog2Rat q - 52) = floorLog2Rat q + 1 := by ring
    rw [this]
    exact s2
  have hb' : q / ratExp2 (floorLog2Rat q - 52) < ((2 ^ 53 : ℤ) : ℚ) := by
    rw [← ratExp2_53]
    exact hb
  have hfl : ⌊q / ratExp2 (floorLog2Rat q - 52)⌋ < (2 ^ 53 : ℤ) := Int.floor_lt.mpr hb'
  have hr : roundHalfEven (q / ratExp2 (floorLog2Rat q - 52)) ≤ (2 ^ 53 : ℤ) :=
    le_trans (roundHalfEven_le_floor_add_one _) (by omega)
  calc (roundHalfEven (q / ratExp2 (floorLog2Rat q - 52)) : ℚ) *
        ratExp2 (floorLog2Rat q - 52)
      ≤ ((2 ^ 53 : ℤ) : ℚ) * ratExp2 (floorLog2Rat q - 52) := by
        apply mul_le_mul_of_nonneg_right _ (ratExp2_pos _).le
        exact_mod_cast hr
    _ = ratExp2 (floorLog2Rat q + 1) := by
        rw [← ratExp2_53, ← ratExp2_add]
        congr 1
        ring

theorem floatRound_mono {a b : ℚ} (ha : 0 ≤ a) (hab : a ≤ b) :
    floatRound a ≤ floatRound b := by
  rcases ha.eq_or_lt with h0 | hpos
  · rw [← h0, floatRound_zero]
    exact floatRound_nonneg (le_trans ha hab)
  · have hb : 0 < b := lt_of_lt_of_le hpos hab
    have hfl : floorLog2Rat a ≤ floorLog2Rat b := floorLog2Rat_mono hpos hab
    rcases hfl.lt_or_eq with hlt | heq
    · calc floatRound a ≤ ratExp2 (floorLog2Rat a + 1) := floatRound_upper hpos
        _ ≤ ratExp2 (floorLog2Rat b) := ratExp2_le_ratExp2 (by omega)
        _ ≤ floatRound b := floatRound_lower hb
    · rw [floatRound_eq_pos hpos, floatRound_eq_pos hb, heq]
      apply mul_le_mul_of_nonneg_right _ (ratExp2_pos _).le
      have hdiv : a / ratExp2 (floorLog2Rat b - 52) ≤ b / ratExp2 (floorLog2Rat b - 52) :=
        div_le_div_of_nonneg_right hab (ratExp2_pos _).le |>.trans_eq rfl
      exact_mod_cast roundHalfEven_mono hdiv

/-! ## Concrete evaluations of the numeric model -/
theorem floatRound_fix (q : ℚ) (n e : ℤ) (hq : q = (n : ℚ) * ratExp2 e)
    (hn1 : 2 ^ 52 ≤ n) (hn2 : n < 2 ^ 53) : floatRound q = q := by
  have hnq : ((2 ^ 52 : ℤ) : ℚ) ≤ (n : ℚ) := by exact_mod_cast hn1
  have hnq' : (n : ℚ) < ((2 ^ 53 : ℤ) : ℚ) := by exact_mod_cast hn2
  have hnpos : (0 : ℚ) < (n : ℚ) := lt_of_lt_of_le (by norm_num) hnq
  have hqpos : 0 < q := by
    rw [hq]
    exact mul_pos hnpos (ratExp2_pos e)
  have hb1 : ratExp2 (e + 52) ≤ q := by
    rw [hq, add_comm, ratExp2_add, ratExp2_52]
    exact mul_le_mul_of_nonneg_right hnq (ratExp2_pos e).le
  have hb2 : q < ratExp2 (e + 53) := by
    rw [hq, add_comm, ratExp2_add, ratExp2_53]
    exact mul_lt_mul_of_pos_right hnq' (ratExp2_pos e)
  rw [floatRound_eq_of_bounds hqpos hb1 hb2]
  have hdiv : q / ratExp2 e = (n : ℚ) := by
    rw [hq, mul_div_assoc, div_self (ratExp2_pos e).ne', mul_one]
  rw [hdiv, roundHalfEven_intCast, ← hq]

theorem pyFloat_ten_point_five : pyFloat "10.5" = some (21 / 2) := by
  have hp : pyDecimalParts "10.5".data = some (10, 5, 1) := by decide
  have hd : pyDecimal "10.5" = some (21 / 2) := by
    rw [pyDecimal, hp]
    norm_num
  rw [pyFloat, hd, Option.map_some']
  rw [floatRound_fix (21/2) 5910974510923776 (-49) (by rw [ratExp2_eq_zpow]; norm_num)
    (by norm_num) (by norm_num)]

theorem pyFloat_two_point_zero : pyFloat "2.0" = some 2 := by
  have hp : pyDecimalParts "2.0".data = some (2, 0, 1) := by decide
  have hd : pyDecimal "2.0" = some 2 := by
    rw [pyDecimal, hp]
    norm_num
  rw [pyFloat, hd, Option.map_some']
  rw [floatRound_fix 2 4503599627370496 (-51) (by rw [ratExp2_eq_zpow]; norm_num)
    (by norm_num) (by norm_num)]

theorem pyFloat_one : pyFloat "1" = some 1 := by
  have hp : pyDecimalParts "1".data = some (1, 0, 0) := by decide
  have hd : pyDecimal "1" = some 1 := by
    rw [pyDecimal, hp]
    norm_num
  rw [pyFloat, hd, Option.map_some']
  rw [floatRound_fix 1 4503599627370496 (-52) (by rw [ratExp2_eq_zpow]; norm_num)
    (by norm_num) (by norm_num)]

theorem pyFloat_two : pyFloat "2" = some 2 := by
  have hp : pyDecimalParts "2".data = some (2, 0, 0) := by decide
  have hd : pyDecimal "2" = some 2 := by
    rw [pyDecimal, hp]
    norm_num
  rw [pyFloat, hd, Option.map_some']
  rw [floatRound_fix 2 4503599627370496 (-51) (by rw [ratExp2_eq_zpow]; norm_num)
    (by norm_num) (by norm_num)]

theorem floatRound_point_37 : floatRound (37 / 100) = 6665327448508334 * ratExp2 (-54) := by
  have hb1 : ratExp2 (-54 + 52) ≤ 37 / 100 := by
    rw [show (-54 + 52 : ℤ) = -2 by norm_num, ratExp2_eq_zpow]
    norm_num
  have hb2 : (37 / 100 : ℚ) < ratExp2 (-54 + 53) := by
    rw [show (-54 + 53 : ℤ) = -1 by norm_num, ratExp2_eq_zpow]
    norm_num
  rw [floatRound_eq_of_bounds (by norm_num) hb1 hb2]
  have hdiv : (37 / 100 : ℚ) / ratExp2 (-54) = 37 * 2 ^ 54 / 100 := by
    rw [ratExp2_eq_zpow]
    norm_num
  rw [hdiv]
  rw [roundHalfEven_eq_of_lt_half _ 6665327448508334 (by norm_num) (by norm_num)]
  norm_num

theorem pyFloat_point_37 : pyFloat "0.37" = some (6665327448508334 * ratExp2 (-54)) := by
  have hp : pyDecimalParts "0.37".data = some (0, 37, 2) := by decide
  have hd : pyDecimal "0.37" = some (37 / 100) := by
    rw [pyDecimal, hp]
    norm_num
  rw [pyFloat, hd, Option.map_some', floatRound_point_37]

theorem make_fixed_point_37 : make_fixed 2 (6665327448508334 * ratExp2 (-54)) =
    { raw := 37, precision := 2 } := by
  rw [make_fixed]
  have hv : (6665327448508334 : ℚ) * ratExp2 (-54) * 10 ^ 2 = 37 - 1 / 2 ^ 51 := by
    rw [ratExp2_eq_zpow]
    norm_num
  rw [hv, roundHalfEven_eq_of_gt_half _ 36 (by norm_num) (by norm_num)]
  norm_num

theorem make_fixed_ten_point_five : make_fixed 2 (21 / 2) = { raw := 1050, precision := 2 } := by
  rw [make_fixed]
  have hv : (21 / 2 : ℚ) * 10 ^ 2 = ((1050 : ℤ) : ℚ) := by norm_num
  rw [hv, roundHalfEven_intCast]

theorem make_fixed_two : make_fixed 2 (2 : ℚ) = { raw := 200, precision := 2 } := by
  rw [make_fixed]
  have hv : (2 : ℚ) * 10 ^ 2 = ((200 : ℤ) : ℚ) := by norm_num
  rw [hv, roundHalfEven_intCast]

theorem make_fixed_one : make_fixed 2 (1 : ℚ) = { raw := 100, precision := 2 } := by
  rw [make_fixed]
  have hv : (1 : ℚ) * 10 ^ 2 = ((100 : ℤ) : ℚ) := by norm_num
  rw [hv, roundHalfEven_intCast]

theorem pyFloat_big_odd : pyFloat "9007199254740993" = some 9007199254740992 := by
  have hp : pyDecimalParts "9007199254740993".data = some (9007199254740993, 0, 0) := by
    decide
  have hd : pyDecimal "9007199254740993" = some 9007199254740993 := by
    rw [pyDecimal, hp]
    norm_num
  rw [pyFloat, hd, Option.map_some']
  have hb1 : ratExp2 (1 + 52) ≤ (9007199254740993 : ℚ) := by
    rw [show (1 + 52 : ℤ) = 53 by norm_num, ratExp2_eq_zpow]
    norm_num
  have hb2 : (9007199254740993 : ℚ) < ratExp2 (1 + 53) := by
    rw [show (1 + 53 : ℤ) = 54 by norm_num, ratExp2_eq_zpow]
    norm_num
  rw [floatRound_eq_of_bounds (by norm_num) hb1 hb2]
  have hdiv : (9007199254740993 : ℚ) / ratExp2 1 = ((4503599627370496 : ℤ) : ℚ) + 1/2 := by
    rw [ratExp2_eq_zpow]
    norm_num
  rw [hdiv, roundHalfEven_eq_of_tie_even _ 4503599627370496 rfl (by norm_num)]
  rw [ratExp2_eq_zpow]
  norm_num

/-! ## Parse-evaluation and parse-inversion helpers -/
theorem userOrder_parse_eval (o : PolymarketUserOrder) (a : String) (i : BinaryOption)
    (c : Option String) (t : ℤ) (ts ev : ℤ) (px sz fl : ℚ)
    (hts : pyInt o.timestamp = some ts) (hexp : o.expiration ≠ "")
    (hev : pyInt o.expiration = some ev) (hpx : pyFloat o.price = some px)
    (hsz : pyFloat o.original_size = some sz) (hfl : pyFloat o.size_matched = some fl) :
    o.parse_to_order_status_report a i c t = some {
      account_id := a
      instrument_id := i.id
      client_order_id := c
      order_list_id := none
      venue_order_id := o.id
      order_side := parse_order_side o.side
      order_type := OrderType.LIMIT
      contingency_type := ContingencyType.NO_CONTINGENCY
      time_in_force := parse_time_in_force o.order_type
      expire_time := some (millis_to_nanos ev)
      order_status := parse_order_status o.status
      price := i.make_price px
      quantity := i.make_qty sz
      filled_qty := i.make_qty fl
      ts_accepted := millis_to_nanos ts
      ts_last := millis_to_nanos ts
      ts_init := t } := by
  simp [PolymarketUserOrder.parse_to_order_status_report, PolymarketUserOrder.venue_order_id,
    hts, hexp, hev, hpx, hsz, hfl]

theorem openOrder_parse_eval (o : PolymarketOpenOrder) (a : String) (i : BinaryOption)
    (c : Option String) (t : ℤ) (ev : ℤ) (px sz fl : ℚ)
    (hexp : o.expiration ≠ "") (hev : pyInt o.expiration = some ev)
    (hpx : pyFloat o.price = some px) (hsz : pyFloat o.original_size = some sz)
    (hfl : pyFloat o.size_matched = some fl) :
    o.parse_to_order_status_report a i c t = some {
      account_id := a
      instrument_id := i.id
      client_order_id := c
      order_list_id := none
      venue_order_id := o.id
      order_side := parse_order_side o.side
      order_type := OrderType.LIMIT
      contingency_type := ContingencyType.NO_CONTINGENCY
      time_in_force := parse_time_in_force o.order_type
      expire_time := some (millis_to_nanos ev)
      order_status := parse_order_status o.status
      price := i.make_price px
      quantity := i.make_qty sz
      filled_qty := i.make_qty fl
      ts_accepted := millis_to_nanos o.created_at
      ts_last := millis_to_nanos o.created_at
      ts_init := t } := by
  simp [PolymarketOpenOrder.parse_to_order_status_report, PolymarketOpenOrder.get_venue_order_id,
    hexp, hev, hpx, hsz, hfl]

theorem userOrder_parse_fields (o : PolymarketUserOrder) (a : String) (i : BinaryOption)
    (c : Option String) (t : ℤ) (r : OrderStatusReport)
    (h : o.parse_to_order_status_report a i c t = some r) :
    (r.expire_time = none ↔ o.expiration = "") ∧
    (∃ sz fl, pyFloat o.original_size = some sz ∧ pyFloat o.size_matched = some fl ∧
      r.quantity = i.make_qty sz ∧ r.filled_qty = i.make_qty fl) := by
  unfold PolymarketUserOrder.parse_to_order_status_report at h
  by_cases hexp : o.expiration = ""
  · simp only [hexp, reduceIte, Option.bind_eq_bind, Option.bind_eq_some, Option.pure_def,
      Option.some.injEq] at h
    obtain ⟨ts, hts, e, he, px, hpx, sz, hsz, fl, hfl, hr⟩ := h
    subst hr
    refine ⟨by simp [hexp, ← he], sz, fl, hsz, hfl, rfl, rfl⟩
  · simp only [hexp, reduceIte, Option.bind_eq_bind, Option.bind_eq_some, Option.pure_def,
      Option.some.injEq] at h
    obtain ⟨ts, hts, ev, hev, e, he, px, hpx, sz, hsz, fl, hfl, hr⟩ := h
    subst hr
    refine ⟨by simp [hexp, ← he], sz, fl, hsz, hfl, rfl, rfl⟩

theorem openOrder_parse_fields (o : PolymarketOpenOrder) (a : String) (i : BinaryOption)
    (c : Option String) (t : ℤ) (r : OrderStatusReport)
    (h : o.parse_to_order_status_report a i c t = some r) :
    (r.expire_time = none ↔ o.expiration = "") ∧
    (∃ sz fl, pyFloat o.original_size = some sz ∧ pyFloat o.size_matched = some fl ∧
      r.quantity = i.make_qty sz ∧ r.filled_qty = i.make_qty fl) := by
  unfold PolymarketOpenOrder.parse_to_order_status_report at h
  by_cases hexp : o.expiration = ""
  · simp only [hexp, reduceIte, Option.bind_eq_bind, Option.bind_eq_some, Option.pure_def,
      Option.some.injEq] at h
    obtain ⟨e, he, px, hpx, sz, hsz, fl, hfl, hr⟩ := h
    subst hr
    refine ⟨by simp [hexp, ← he], sz, fl, hsz, hfl, rfl, rfl⟩
  · simp only [hexp, reduceIte, Option.bind_eq_bind, Option.bind_eq_some, Option.pure_def,
      Option.some.injEq] at h
    obtain ⟨ev, hev, e, he, px, hpx, sz, hsz, fl, hfl, hr⟩ := h
    subst hr
    refine ⟨by simp [hexp, ← he], sz, fl, hsz, hfl, rfl, rfl⟩

/-! ## Claims about the Binance URL resolvers -/
/-- C5 (amended): in test-network mode, spot and margin share one HTTP host
and one WebSocket host; the two futures sub-markets do NOT each get their
own distinct HTTP host — they share the single futures testnet host, which
is distinct from the spot/margin one. -/
theorem claim_C5 (us : Bool) :
    (_get_http_base_url { account_type := .SPOT, testnet := true, us := us } =
      _get_http_base_url { account_type := .MARGIN, testnet := true, us := us }) ∧
    (_get_ws_base_url { account_type := .SPOT, testnet := true, us := us } =
      _get_ws_base_url { account_type := .MARGIN, testnet := true, us := us }) ∧
    (_get_http_base_url { account_type := .FUTURES_USDT, testnet := true, us := us } =
      _get_http_base_url { account_type := .FUTURES_COIN, testnet := true, us := us }) ∧
    (_get_http_base_url { account_type := .FUTURES_USDT, testnet := true, us := us } ≠
      _get_http_base_url { account_type := .SPOT, testnet := true, us := us }) :=
  ⟨rfl, rfl, rfl, by cases us <;> decide⟩

/-- C5 counterexample: the claim says each futures sub-market maps to its
own distinct testnet HTTP host, but USDT-margined and coin-margined futures
resolve to the identical host string. -/
theorem claim_C5_counterexample :
    _get_http_base_url { account_type := .FUTURES_USDT, testnet := true, us := false } =
      _get_http_base_url { account_type := .FUTURES_COIN, testnet := true, us := false } :=
  rfl

/-- C6: for every regional-flag value, resolving the WebSocket base URL for
coin-margined futures on the test network always fails with the
unsupported-combination error and never returns a URL. -/
theorem claim_C6 (us : Bool) :
    _get_ws_base_url { account_type := .FUTURES_COIN, testnet := true, us := us } =
      Except.error "no testnet for COIN-M futures" :=
  rfl

/-! ## Claims about the Binance resource caches -/
/-- C4 (amended): the `@lru_cache(1)` provider factories memoize a single
entry keyed by the FULL argument tuple: a repeated request with the
identical tuple returns the same provider instance and leaves the cache
state unchanged (no new construction). -/
theorem claim_C4 (st : ProviderCacheState) (k : ProviderKey)
    (p : BinanceInstrumentProvider) (h : st.cached = some (k, p)) :
    get_cached_binance_instrument_provider st k = (p, st) := by
  unfold get_cached_binance_instrument_provider
  rw [h]
  simp

/-- C4 witness: a concrete cache state holding key `⟨0, 0, SPOT, 0⟩` returns
its cached provider unchanged. -/
theorem claim_C4_witness :
    get_cached_binance_instrument_provider
      { cached := some (⟨0, 0, .SPOT, 0⟩,
          { client := 0, logger := 0, account_type := .SPOT, config := 0, uid := 0 }),
        next_uid := 1 }
      ⟨0, 0, .SPOT, 0⟩ =
      ({ client := 0, logger := 0, account_type := .SPOT, config := 0, uid := 0 },
       { cached := some (⟨0, 0, .SPOT, 0⟩,
           { client := 0, logger := 0, account_type := .SPOT, config := 0, uid := 0 }),
         next_uid := 1 }) :=
  claim_C4 _ _ _ rfl

/-- C4 counterexample: two requests with the SAME account type but a
different logger construct two distinct provider instances, and the second
request evicts the first entry, so a third request with the original
arguments constructs yet another instance — refuting "at most one provider
instance per account type, never evicted or replaced". -/
theorem claim_C4_counterexample :
    (get_cached_binance_instrument_provider { cached := none, next_uid := 0 }
      ⟨0, 0, .SPOT, 0⟩).1.uid = 0 ∧
    (get_cached_binance_instrument_provider
      (get_cached_binance_instrument_provider { cached := none, next_uid := 0 }
        ⟨0, 0, .SPOT, 0⟩).2 ⟨0, 1, .SPOT, 0⟩).1.uid = 1 ∧
    (get_cached_binance_instrument_provider
      (get_cached_binance_instrument_provider
        (get_cached_binance_instrument_provider { cached := none, next_uid := 0 }
          ⟨0, 0, .SPOT, 0⟩).2 ⟨0, 1, .SPOT, 0⟩).2 ⟨0, 0, .SPOT, 0⟩).1.uid = 2 := by
  refine ⟨rfl, ?_, ?_⟩ <;> decide

theorem get_cached_http_hit (env : BinanceEnv) (st : HttpClientsState)
    (loop clock logger : ℕ) (key secret : Option String)
    (account_type : BinanceAccountType) (base_url : Option String) (is_testnet : Bool)
    (c : BinanceHttpClient)
    (h : List.lookup (binanceClientKey env key secret account_type is_testnet)
      st.clients = some c) :
    get_cached_binance_http_client env st loop clock logger key secret account_type
      base_url is_testnet = (c, st) := by
  unfold get_cached_binance_http_client
  rw [h]

theorem get_cached_http_miss (env : BinanceEnv) (st : HttpClientsState)
    (loop clock logger : ℕ) (key secret : Option String)
    (account_type : BinanceAccountType) (base_url : Option String) (is_testnet : Bool)
    (h : List.lookup (binanceClientKey env key secret account_type is_testnet)
      st.clients = none) :
    get_cached_binance_http_client env st loop clock logger key secret account_type
      base_url is_testnet =
    ({ loop := loop, clock := clock, logger := logger,
       key := binanceResolvedKey env key account_type is_testnet,
       secret := binanceResolvedSecret env secret account_type is_testnet,
       base_url := base_url, uid := st.next_uid },
     { clients := (binanceClientKey env key secret account_type is_testnet,
         { loop := loop, clock := clock, logger := logger,
           key := binanceResolvedKey env key account_type is_testnet,
           secret := binanceResolvedSecret env secret account_type is_testnet,
           base_url := base_url, uid := st.next_uid }) :: st.clients,
       next_uid := st.next_uid + 1 }) := by
  unfold get_cached_binance_http_client
  rw [h]

/-- C8: two successive get-or-create calls on the HTTP-client cache whose
resolved credential keys agree (the non-credential arguments may differ)
return the same client instance, the second call leaves the state
unchanged, construction runs exactly once when the key was absent, and no
pre-existing entry is ever removed. -/
theorem claim_C8 (env : BinanceEnv) (st : HttpClientsState) (loop clock logger : ℕ)
    (key secret : Option String) (account_type : BinanceAccountType)
    (base_url : Option String) (is_testnet : Bool)
    (loop2 clock2 logger2 : ℕ) (key2 secret2 : Option String)
    (at2 : BinanceAccountType) (bu2 : Option String) (tn2 : Bool)
    (hkey : binanceClientKey env key2 secret2 at2 tn2 =
      binanceClientKey env key secret account_type is_testnet) :
    (get_cached_binance_http_client env
        (get_cached_binance_http_client env st loop clock logger key secret account_type
          base_url is_testnet).2 loop2 clock2 logger2 key2 secret2 at2 bu2 tn2).1 =
      (get_cached_binance_http_client env st loop clock logger key secret account_type
        base_url is_testnet).1 ∧
    (get_cached_binance_http_client env
        (get_cached_binance_http_client env st loop clock logger key secret account_type
          base_url is_testnet).2 loop2 clock2 logger2 key2 secret2 at2 bu2 tn2).2 =
      (get_cached_binance_http_client env st loop clock logger key secret account_type
        base_url is_testnet).2 ∧
    (st.clients.lookup (binanceClientKey env key secret account_type is_testnet) = none →
      (get_cached_binance_http_client env st loop clock logger key secret account_type
        base_url is_testnet).2.next_uid = st.next_uid + 1) ∧
    (∀ e ∈ st.clients,
      e ∈ (get_cached_binance_http_client env
        (get_cached_binance_http_client env st loop clock logger key secret account_type
          base_url is_testnet).2 loop2 clock2 logger2 key2 secret2 at2 bu2 tn2).2.clients) := by
  rcases hl : List.lookup
      (binanceClientKey env key secret account_type is_testnet) st.clients with _ | c
  · have h1 := get_cached_http_miss env st loop clock logger key secret account_type
      base_url is_testnet hl
    have h2 : List.lookup (binanceClientKey env key2 secret2 at2 tn2)
        (get_cached_binance_http_client env st loop clock logger key secret account_type
          base_url is_testnet).2.clients =
        some (get_cached_binance_http_client env st loop clock logger key secret account_type
          base_url is_testnet).1 := by
      rw [h1, hkey]
      simp [List.lookup]
    have h3 := get_cached_http_hit env _ loop2 clock2 logger2 key2 secret2 at2
      bu2 tn2 _ h2
    refine ⟨by rw [h3], by rw [h3], fun _ => by rw [h1], fun e he => ?_⟩
    rw [h3, h1]
    exact List.mem_cons_of_mem _ he
  · have h1 := get_cached_http_hit env st loop clock logger key secret account_type
      base_url is_testnet c hl
    have h2 : List.lookup (binanceClientKey env key2 secret2 at2 tn2)
        (get_cached_binance_http_client env st loop clock logger key secret account_type
          base_url is_testnet).2.clients =
        some (get_cached_binance_http_client env st loop clock logger key secret account_type
          base_url is_testnet).1 := by
      rw [h1, hkey]
      exact hl
    have h3 := get_cached_http_hit env _ loop2 clock2 logger2 key2 secret2 at2
      bu2 tn2 _ h2
    refine ⟨by rw [h3], by rw [h3], fun hn => absurd hn (by simp [hl]), ?_⟩
    intro e he
    rw [h3]
    simp only [h1]
    exact he

/-- C9: with explicit nonempty credentials whose derived key is already
cached, the returned client is determined solely by (key, secret): a call
with ANY event loop, clock, logger, account type, base URL or testnet flag
returns the identical cached instance and leaves the registry unchanged —
in particular a different requested `base_url` has no effect. -/
theorem claim_C9 (env : BinanceEnv) (st : HttpClientsState) (k sec : String)
    (c : BinanceHttpClient) (hk : k ≠ "") (hs : sec ≠ "")
    (hmem : st.clients.lookup (k ++ "|" ++ sec) = some c)
    (loop1 clock1 logger1 : ℕ) (at1 : BinanceAccountType) (bu1 : Option String) (tn1 : Bool)
    (loop2 clock2 logger2 : ℕ) (at2 : BinanceAccountType) (bu2 : Option String) (tn2 : Bool) :
    get_cached_binance_http_client env st loop1 clock1 logger1 (some k) (some sec)
      at1 bu1 tn1 = (c, st) ∧
    get_cached_binance_http_client env st loop2 clock2 logger2 (some k) (some sec)
      at2 bu2 tn2 = (c, st) := by
  have hck : ∀ at_ tn, binanceClientKey env (some k) (some sec) at_ tn = k ++ "|" ++ sec := by
    intro at_ tn
    simp [binanceClientKey, binanceResolvedKey, binanceResolvedSecret, orElseFalsy, hk, hs]
  constructor <;>
    · unfold get_cached_binance_http_client
      rw [hck, hmem]

/-- C9 witness: a concrete registry holding the key `"K|S"`; calls that
differ in every non-credential argument (including `base_url`) both return
the stored client with uid 41 and leave the state unchanged. -/
theorem claim_C9_witness :
    get_cached_binance_http_client
      { api_key := "", api_secret := "", testnet_api_key := "", testnet_api_secret := "",
        futures_api_key := "", futures_api_secret := "", futures_testnet_api_key := "",
        futures_testnet_api_secret := "" }
      { clients := [("K|S",
          { loop := 9, clock := 9, logger := 9, key := "K", secret := "S",
            base_url := none, uid := 41 })], next_uid := 42 }
      0 0 0 (some "K") (some "S") .SPOT (some "https://api.binance.com") false =
      ({ loop := 9, clock := 9, logger := 9, key := "K", secret := "S",
         base_url := none, uid := 41 },
       { clients := [("K|S",
           { loop := 9, clock := 9, logger := 9, key := "K", secret := "S",
             base_url := none, uid := 41 })], next_uid := 42 }) ∧
    get_cached_binance_http_client
      { api_key := "", api_secret := "", testnet_api_key := "", testnet_api_secret := "",
        futures_api_key := "", futures_api_secret := "", futures_testnet_api_key := "",
        futures_testnet_api_secret := "" }
      { clients := [("K|S",
          { loop := 9, clock := 9, logger := 9, key := "K", secret := "S",
            base_url := none, uid := 41 })], next_uid := 42 }
      1 2 3 (some "K") (some "S") .FUTURES_COIN (some "https://other.example") true =
      ({ loop := 9, clock := 9, logger := 9, key := "K", secret := "S",
         base_url := none, uid := 41 },
       { clients := [("K|S",
           { loop := 9, clock := 9, logger := 9, key := "K", secret := "S",
             base_url := none, uid := 41 })], next_uid := 42 }) :=
  claim_C9 _ _ "K" "S" _ (by decide) (by decide) (by decide) 0 0 0 .SPOT
    (some "https://api.binance.com") false 1 2 3 .FUTURES_COIN
    (some "https://other.example") true

/-- C8 witness: from a concrete registry where `"K|S"` is absent, a second
call differing in loop/clock/logger/account-type/base-url still returns the
same instance, exactly one construction happens, and the pre-existing
`"A|B"` entry survives. -/
theorem claim_C8_witness :
    (get_cached_binance_http_client witnessEnv
      (get_cached_binance_http_client witnessEnv witnessHttpState 1 2 3 (some "K") (some "S")
        .SPOT none false).2
      7 8 9 (some "K") (some "S") .FUTURES_USDT (some "https://elsewhere.example") true).1 =
    (get_cached_binance_http_client witnessEnv witnessHttpState 1 2 3 (some "K") (some "S")
      .SPOT none false).1 ∧
    (get_cached_binance_http_client witnessEnv witnessHttpState 1 2 3 (some "K") (some "S")
      .SPOT none false).2.next_uid = 5 + 1 ∧
    ("A|B", witnessClientA) ∈ (get_cached_binance_http_client witnessEnv
      (get_cached_binance_http_client witnessEnv witnessHttpState 1 2 3 (some "K") (some "S")
        .SPOT none false).2
      7 8 9 (some "K") (some "S") .FUTURES_USDT (some "https://elsewhere.example") true).2.clients := by
  have h := claim_C8 witnessEnv witnessHttpState 1 2 3 (some "K") (some "S") .SPOT none false
    7 8 9 (some "K") (some "S") .FUTURES_USDT (some "https://elsewhere.example") true
    (by decide)
  exact ⟨h.1, h.2.2.1 (by decide), h.2.2.2 ("A|B", witnessClientA) (by simp [witnessHttpState])⟩

/-! ## Claims about the Polymarket trade identity resolution -/
theorem find?_append_of_none {α : Type} (p : α → Bool) {l1 l2 : List α}
    (h : l1.find? p = none) : (l1 ++ l2).find? p = l2.find? p := by
  rw [List.find?_append, h]
  rfl

/-- C2: for every trade payload, taker perspective resolves liquidity side
to TAKER and the venue order id to the payload's `taker_order_id`; maker
perspective resolves to MAKER, and the venue order id is the `order_id` of
the LAST-listed sub-order whose `maker_address` matches (scan from the last
element backwards); with no matching sub-order, resolution fails with the
maker-order-not-found error instead of returning an id. -/
theorem claim_C2 (t : PolymarketUserTrade) (addr : String) :
    (t.trader_side = PolymarketLiquiditySide.TAKER →
      t.liqudity_side = LiquiditySide.TAKER ∧
      t.venue_order_id addr = Except.ok t.taker_order_id) ∧
    (t.trader_side = PolymarketLiquiditySide.MAKER →
      t.liqudity_side = LiquiditySide.MAKER ∧
      (∀ l1 o l2, t.maker_orders = l1 ++ o :: l2 → o.maker_address = addr →
        (∀ o₂ ∈ l2, o₂.maker_address ≠ addr) →
        t.venue_order_id addr = Except.ok o.order_id) ∧
      ((∀ o ∈ t.maker_orders, o.maker_address ≠ addr) →
        t.venue_order_id addr =
          Except.error "Invalid array of maker orders (`maker_address` not found)")) := by
  constructor
  · intro ht
    have hne : ¬ t.trader_side = PolymarketLiquiditySide.MAKER := by
      rw [ht]
      intro hc
      cases hc
    constructor
    · unfold PolymarketUserTrade.liqudity_side
      rw [if_neg hne]
    · unfold PolymarketUserTrade.venue_order_id
      rw [if_neg hne]
  · intro ht
    refine ⟨by unfold PolymarketUserTrade.liqudity_side; rw [if_pos ht], ?_, ?_⟩
    · intro l1 o l2 hsplit hmatch hnone
      unfold PolymarketUserTrade.venue_order_id
      rw [if_pos ht, hsplit]
      have hfind : ((l1 ++ o :: l2).reverse.find?
          (fun x => x.maker_address == addr)) = some o := by
        rw [List.reverse_append, List.reverse_cons, List.append_assoc,
          List.singleton_append]
        have hl2r : (l2.reverse.find? (fun x => x.maker_address == addr)) = none := by
          rw [List.find?_eq_none]
          intro x hx hc
          exact hnone x (List.mem_reverse.mp hx) (beq_iff_eq.mp hc)
        rw [find?_append_of_none _ hl2r]
        exact List.find?_cons_of_pos _ (beq_iff_eq.mpr hmatch)
      rw [hfind]
    · intro hnone
      unfold PolymarketUserTrade.venue_order_id
      rw [if_pos ht]
      have hfind : (t.maker_orders.reverse.find?
          (fun x => x.maker_address == addr)) = none := by
        rw [List.find?_eq_none]
        intro x hx hc
        exact hnone x (List.mem_reverse.mp hx) (beq_iff_eq.mp hc)
      rw [hfind]

/-- C2 witness: the three branches at concrete trades — taker id passthrough,
maker resolution picking the most-recently-listed matching sub-order
(`"mo-2"`, not `"mo-1"`), and the failure on no match. -/
theorem claim_C2_witness :
    (witnessTakerTrade.liqudity_side = LiquiditySide.TAKER ∧
      witnessTakerTrade.venue_order_id "0xME" = Except.ok "tk-1") ∧
    (witnessMakerTrade.venue_order_id "0xME" = Except.ok "mo-2") ∧
    (witnessOrphanTrade.venue_order_id "0xME" =
      Except.error "Invalid array of maker orders (`maker_address` not found)") := by
  refine ⟨(claim_C2 witnessTakerTrade "0xME").1 rfl, ?_, ?_⟩
  · exact ((claim_C2 witnessMakerTrade "0xME").2 rfl).2.1
      [{ maker_address := "0xME", order_id := "mo-1" },
       { maker_address := "0xOTHER", order_id := "mo-x" }]
      { maker_address := "0xME", order_id := "mo-2" } [] rfl rfl
      (fun o₂ h => absurd h (List.not_mem_nil o₂))
  · exact ((claim_C2 witnessOrphanTrade "0xME").2 rfl).2.2 (by decide)

/-! ## Claim about the Polymarket user-order fill report -/
/-- C10: every fill report parsed from a user-order payload has
`trade_id` equal to `venue_order_id`, both being the payload's single `id`
field — the fill is identified by the order's id, for every context. -/
theorem claim_C10 (o : PolymarketUserOrder) (a : String) (i : BinaryOption)
    (c : Option String) (ls : LiquiditySide) (t : ℤ) (r : FillReport)
    (h : o.parse_to_fill_report a i c ls t = some r) :
    r.trade_id = r.venue_order_id ∧ r.trade_id = o.id := by
  unfold PolymarketUserOrder.parse_to_fill_report at h
  simp only [Option.bind_eq_bind, Option.bind_eq_some, Option.pure_def,
    Option.some.injEq] at h
  obtain ⟨ts, hts, fl, hfl, px, hpx, hr⟩ := h
  subst hr
  exact ⟨rfl, rfl⟩

/-- Full evaluation of the example payload's order status report. -/
theorem exUserOrder_parse :
    exUserOrder.parse_to_order_status_report "ACC" exInstrument none 7 =
      some exReport := by
  have h1 : pyInt exUserOrder.timestamp = some 1700000000000 := by decide
  have h2 : pyInt exUserOrder.expiration = some 0 := by decide
  have h3 : pyFloat exUserOrder.price = some (6665327448508334 * ratExp2 (-54)) :=
    pyFloat_point_37
  have h4 : pyFloat exUserOrder.original_size = some (21/2) := pyFloat_ten_point_five
  have h5 : pyFloat exUserOrder.size_matched = some 2 := pyFloat_two_point_zero
  have h6 : exUserOrder.expiration ≠ "" := by decide
  rw [userOrder_parse_eval exUserOrder "ACC" exInstrument none 7 1700000000000 0
    (6665327448508334 * ratExp2 (-54)) (21/2) 2 h1 h6 h2 h3 h4 h5]
  simp only [exUserOrder, exInstrument, exReport, BinaryOption.make_price,
    BinaryOption.make_qty, make_fixed_point_37, make_fixed_ten_point_five, make_fixed_two,
    parse_order_side, parse_time_in_force, parse_order_status, millis_to_nanos]
  rfl

/-- Full evaluation of the example payload's fill report. -/
theorem exUserOrder_fill_parse :
    exUserOrder.parse_to_fill_report "ACC" exInstrument none LiquiditySide.TAKER 3 =
      some exFill := by
  have h1 : pyInt exUserOrder.timestamp = some 1700000000000 := by decide
  have h3 : pyFloat exUserOrder.price = some (6665327448508334 * ratExp2 (-54)) :=
    pyFloat_point_37
  have h5 : pyFloat exUserOrder.size_matched = some 2 := pyFloat_two_point_zero
  unfold PolymarketUserOrder.parse_to_fill_report
  simp only [h1, h3, h5, Option.bind_eq_bind, Option.some_bind, Option.pure_def,
    Option.some.injEq]
  simp only [exUserOrder, exInstrument, exFill, PolymarketUserOrder.venue_order_id,
    BinaryOption.make_price, BinaryOption.make_qty, make_fixed_point_37, make_fixed_two,
    parse_order_side, millis_to_nanos]
  rfl

/-- Exact decimal value lemma for the witness strings. -/
theorem pyDecimal_ten_point_five : pyDecimal "10.5" = some (21 / 2) := by
  have hp : pyDecimalParts "10.5".data = some (10, 5, 1) := by decide
  rw [pyDecimal, hp]
  norm_num

/-- Exact decimal value lemma for the witness strings. -/
theorem pyDecimal_two_point_zero : pyDecimal "2.0" = some 2 := by
  have hp : pyDecimalParts "2.0".data = some (2, 0, 1) := by decide
  rw [pyDecimal, hp]
  norm_num

/-- Exact decimal value of the 16-digit counterexample string. -/
theorem pyDecimal_big_odd : pyDecimal "9007199254740993" = some 9007199254740993 := by
  have hp : pyDecimalParts "9007199254740993".data = some (9007199254740993, 0, 0) := by
    decide
  rw [pyDecimal, hp]
  norm_num

/-- The value 10.5 is exactly representable in binary64. -/
theorem floatRound_ten_half : floatRound (21 / 2 : ℚ) = 21 / 2 :=
  floatRound_fix (21/2) 5910974510923776 (-49) (by rw [ratExp2_eq_zpow]; norm_num)
    (by norm_num) (by norm_num)

/-- Values parsed from decimal strings are nonnegative. -/
theorem pyDecimal_nonneg {s : String} {q : ℚ} (h : pyDecimal s = some q) : 0 ≤ q := by
  unfold pyDecimal at h
  rcases hp : pyDecimalParts s.data with _ | parts
  · rw [hp] at h
    cases h
  · rw [hp, Option.map_some'] at h
    have hq := Option.some.inj h
    rw [← hq]
    positivity

/-- Raw fixed-point values are monotone in the unscaled value. -/
theorem make_fixed_raw_mono (p : ℕ) {a b : ℚ} (h : a ≤ b) :
    (make_fixed p a).raw ≤ (make_fixed p b).raw :=
  roundHalfEven_mono (mul_le_mul_of_nonneg_right h (by positivity))

/-! ## Claims about the order status report parsers -/
/-- C1 (amended): for both order-update parsers the report's expire_time is
`None` exactly when the venue expiration STRING is absent/empty — a
supplied `"0"` is truthy in the source and yields `expire_time = 0` (the
epoch), not `None`; the spec's example payload therefore yields
`quantity = 10.50`, `filled_qty = 2.00`, `price = 0.37`, and
`expire_time = Some 0`. -/
theorem claim_C1 :
    (∀ (o : PolymarketUserOrder) (a : String) (i : BinaryOption) (c : Option String)
      (t : ℤ) (r : OrderStatusReport),
      o.parse_to_order_status_report a i c t = some r →
      (r.expire_time = none ↔ o.expiration = "")) ∧
    (∀ (o : PolymarketOpenOrder) (a : String) (i : BinaryOption) (c : Option String)
      (t : ℤ) (r : OrderStatusReport),
      o.parse_to_order_status_report a i c t = some r →
      (r.expire_time = none ↔ o.expiration = "")) ∧
    ((exUserOrder.parse_to_order_status_report "ACC" exInstrument none 7).map
      (fun r => (r.quantity, r.filled_qty, r.price, r.expire_time)) =
      some ({ raw := 1050, precision := 2 }, { raw := 200, precision := 2 },
        { raw := 37, precision := 2 }, some 0)) :=
  ⟨fun o a i c t r h => (userOrder_parse_fields o a i c t r h).1,
   fun o a i c t r h => (openOrder_parse_fields o a i c t r h).1,
   by rw [exUserOrder_parse]; rfl⟩

/-- C1 counterexample: at the claim's own example payload
(`expiration = "0"`) the produced report's expire_time is `Some 0`, not
`None` — the string `"0"` is nonempty hence truthy in the source's
`if self.expiration` test. -/
theorem claim_C1_counterexample :
    (exUserOrder.parse_to_order_status_report "ACC" exInstrument none 7).map
      OrderStatusReport.expire_time ≠ some none ∧
    (exUserOrder.parse_to_order_status_report "ACC" exInstrument none 7).map
      OrderStatusReport.expire_time = some (some 0) := by
  rw [exUserOrder_parse]
  exact ⟨by simp [exReport], rfl⟩

/-- C1 witness: the iff instantiated at the example payload and its
concrete report. -/
theorem claim_C1_witness :
    exReport.expire_time = none ↔ exUserOrder.expiration = "" :=
  claim_C1.1 exUserOrder "ACC" exInstrument none 7 exReport exUserOrder_parse

/-- C10 witness: the concrete fill report of the example payload carries
its order id as both trade id and venue order id. -/
theorem claim_C10_witness :
    exFill.trade_id = exFill.venue_order_id ∧ exFill.trade_id = exUserOrder.id :=
  claim_C10 exUserOrder "ACC" exInstrument none LiquiditySide.TAKER 3 exFill
    exUserOrder_fill_parse

/-- C7 (amended): whenever the payload's decimal values satisfy
`size_matched ≤ original_size`, the produced report satisfies
`filled_qty ≤ quantity` (raw values at the common precision); the parsers
themselves enforce nothing. -/
theorem claim_C7 :
    (∀ (o : PolymarketUserOrder) (a : String) (i : BinaryOption) (c : Option String)
      (t : ℤ) (r : OrderStatusReport) (sz fl : ℚ),
      pyDecimal o.original_size = some sz → pyDecimal o.size_matched = some fl →
      fl ≤ sz → o.parse_to_order_status_report a i c t = some r →
      r.filled_qty.raw ≤ r.quantity.raw) ∧
    (∀ (o : PolymarketOpenOrder) (a : String) (i : BinaryOption) (c : Option String)
      (t : ℤ) (r : OrderStatusReport) (sz fl : ℚ),
      pyDecimal o.original_size = some sz → pyDecimal o.size_matched = some fl →
      fl ≤ sz → o.parse_to_order_status_report a i c t = some r →
      r.filled_qty.raw ≤ r.quantity.raw) := by
  constructor
  · intro o a i c t r sz fl hsz hfl hle h
    obtain ⟨_, sz', fl', hsz', hfl', hq, hf⟩ := userOrder_parse_fields o a i c t r h
    rw [pyFloat, hsz, Option.map_some'] at hsz'
    rw [pyFloat, hfl, Option.map_some'] at hfl'
    rw [hq, hf, ← Option.some.inj hsz', ← Option.some.inj hfl']
    exact make_fixed_raw_mono _ (floatRound_mono (pyDecimal_nonneg hfl) hle)
  · intro o a i c t r sz fl hsz hfl hle h
    obtain ⟨_, sz', fl', hsz', hfl', hq, hf⟩ := openOrder_parse_fields o a i c t r h
    rw [pyFloat, hsz, Option.map_some'] at hsz'
    rw [pyFloat, hfl, Option.map_some'] at hfl'
    rw [hq, hf, ← Option.some.inj hsz', ← Option.some.inj hfl']
    exact make_fixed_raw_mono _ (floatRound_mono (pyDecimal_nonneg hfl) hle)

/-- Evaluation of the overfilled payload's report. -/
theorem overfillOrder_parse :
    overfillOrder.parse_to_order_status_report "ACC" exInstrument none 0 =
      some {
        account_id := "ACC", instrument_id := "POLY-1", client_order_id := none,
        order_list_id := none, venue_order_id := "ORDER-1",
        order_side := OrderSide.BUY, order_type := OrderType.LIMIT,
        contingency_type := ContingencyType.NO_CONTINGENCY,
        time_in_force := TimeInForce.GTC, expire_time := some 0,
        order_status := OrderStatus.ACCEPTED,
        price := { raw := 37, precision := 2 },
        quantity := { raw := 100, precision := 2 },
        filled_qty := { raw := 200, precision := 2 },
        ts_accepted := 1700000000000000000, ts_last := 1700000000000000000,
        ts_init := 0 } := by
  have h1 : pyInt overfillOrder.timestamp = some 1700000000000 := by decide
  have h2 : pyInt overfillOrder.expiration = some 0 := by decide
  have h3 : pyFloat overfillOrder.price = some (6665327448508334 * ratExp2 (-54)) :=
    pyFloat_point_37
  have h4 : pyFloat overfillOrder.original_size = some 1 := pyFloat_one
  have h5 : pyFloat overfillOrder.size_matched = some 2 := pyFloat_two
  have h6 : overfillOrder.expiration ≠ "" := by decide
  rw [userOrder_parse_eval overfillOrder "ACC" exInstrument none 0 1700000000000 0
    (6665327448508334 * ratExp2 (-54)) 1 2 h1 h6 h2 h3 h4 h5]
  simp only [overfillOrder, exUserOrder, exInstrument, BinaryOption.make_price,
    BinaryOption.make_qty, make_fixed_point_37, make_fixed_one, make_fixed_two,
    parse_order_side, parse_time_in_force, parse_order_status, millis_to_nanos]
  rfl

/-- C7 counterexample: a payload with `original_size="1"`,
`size_matched="2"` parses to a report with `filled_qty.raw = 200 >
100 = quantity.raw`; the unconditional invariant fails. -/
theorem claim_C7_counterexample :
    (overfillOrder.parse_to_order_status_report "ACC" exInstrument none 0).map
      (fun r => decide (r.filled_qty.raw ≤ r.quantity.raw)) = some false := by
  rw [overfillOrder_parse]
  rfl

/-- C7 witness: the example payload satisfies 2.0 ≤ 10.5 and its report has
`filled_qty.raw = 200 ≤ 1050 = quantity.raw`. -/
theorem claim_C7_witness : exReport.filled_qty.raw ≤ exReport.quantity.raw :=
  claim_C7.1 exUserOrder "ACC" exInstrument none 7 exReport (21/2) 2
    pyDecimal_ten_point_five pyDecimal_two_point_zero (by norm_num) exUserOrder_parse

/-! ## Claims about the decimal-to-fixed conversion -/
/-- Scaled integer evaluation used by the C3 counterexample. -/
theorem make_fixed_big : make_fixed 0 (9007199254740992 : ℚ) =
    { raw := 9007199254740992, precision := 0 } := by
  rw [make_fixed]
  have hv : (9007199254740992 : ℚ) * 10 ^ 0 = ((9007199254740992 : ℤ) : ℚ) := by
    norm_num
  rw [hv, roundHalfEven_intCast]

/-- C3 (amended): conversion passes the string through a binary64
intermediate (Python `float()`), so the unrestricted exactness claim fails
(see the 2^53 + 1 counterexample below); the round-trip IS exact whenever
the string's value `q` is a fixed point of the binary64 rounding and `q`
scales to an integer at precision `p` — a sufficient condition only: the
intermediate may also round to a value the rescaling rounds back. -/
theorem claim_C3 (s : String) (p : ℕ) (q : ℚ) (h1 : pyDecimal s = some q)
    (h2 : floatRound q = q) (h3 : (q * 10 ^ p).den = 1) :
    (to_fixed s p).map Fixed.toRat = some q := by
  rw [to_fixed, pyFloat, h1, Option.map_some', h2, Option.map_some']
  have hint : ((q * 10 ^ p).num : ℚ) = q * 10 ^ p := by
    conv_rhs => rw [← Rat.num_div_den (q * 10 ^ p)]
    rw [h3]
    norm_num
  have hr : roundHalfEven (q * 10 ^ p) = (q * 10 ^ p).num := by
    conv_lhs => rw [← hint]
    exact roundHalfEven_intCast _
  simp only [make_fixed, hr, Option.map_some', Fixed.toRat, Option.some.injEq]
  rw [hint]
  exact mul_div_cancel_right₀ q (by positivity : (10 : ℚ) ^ p ≠ 0)

/-- C3 counterexample: the 16-significant-digit quantity string
`"9007199254740993"` (value `2^53 + 1`) at precision 0 converts through the
binary64 intermediate to `9007199254740992`: formatting the fixed value
does NOT reproduce the string's numeric value, refuting the exactness
claim. -/
theorem claim_C3_counterexample :
    (to_fixed "9007199254740993" 0).map Fixed.toRat = some 9007199254740992 ∧
    pyDecimal "9007199254740993" = some 9007199254740993 ∧
    (to_fixed "9007199254740993" 0).map Fixed.toRat ≠ pyDecimal "9007199254740993" := by
  have hA : (to_fixed "9007199254740993" 0).map Fixed.toRat = some 9007199254740992 := by
    rw [to_fixed, pyFloat_big_odd, Option.map_some', make_fixed_big, Option.map_some']
    rw [Fixed.toRat]
    norm_num
  refine ⟨hA, pyDecimal_big_odd, ?_⟩
  rw [hA, pyDecimal_big_odd]
  intro hc
  have := Option.some.inj hc
  norm_num at this

/-- C3 witness: the representable value 10.5 at precision 2 round-trips
exactly. -/
theorem claim_C3_witness : (to_fixed "10.5" 2).map Fixed.toRat = some (21 / 2) :=
  claim_C3 "10.5" 2 (21/2) pyDecimal_ten_point_five floatRound_ten_half
    (by rw [show (21 / 2 : ℚ) * 10 ^ 2 = ((1050 : ℤ) : ℚ) by norm_num]
        exact Rat.den_intCast 1050)
